import Mathlib

/-!
Verification of TerraBot's progression and encounter engine.

The definitions below are a shallow embedding of the game logic in
`src/utils/LevelManager.js` and the `AdventureManager` class
(`src/unnamed/part_000`).  JavaScript numbers are modelled by exact
integer/rational arithmetic (`Nat`, `Int`, `ℚ`); `Math.floor`,
`Math.ceil` and `Math.sqrt` on the integer-valued quantities used by the
engine are rendered with the corresponding exact operations.  Calls to
`Math.random()` (each a draw from `[0,1)`) are passed in explicitly as
exact fractions.  User-facing message strings are abstracted to a
structured message tag carrying the numeric payload that the string
interpolates.
-/

namespace TerraBot

/-! ## Data model -/

/-- Adventure character stats, `stats` sub-object of the adventure profile. -/
structure Stats where
  health : Nat
  maxHealth : Nat
  attack : Nat
  defense : Nat
  speed : Nat
deriving DecidableEq, Repr

/-- One inventory line: `{id, quantity}` as pushed by `_addItemToInventory`. -/
structure InvEntry where
  id : String
  quantity : Nat
deriving DecidableEq, Repr

/-- `inventory` sub-object: gold plus the item list. -/
structure Inventory where
  gold : Nat
  items : List InvEntry
deriving DecidableEq, Repr

/-- `equipment` sub-object: three nullable slots holding item ids. -/
structure Equipment where
  weapon : Option String
  armor : Option String
  accessory : Option String
deriving DecidableEq, Repr

/-- Per-activity cooldown timestamps (milliseconds). -/
structure Cooldowns where
  hunt : Nat
  train : Nat
  daily : Nat
  quest : Nat
deriving DecidableEq, Repr

/-- The adventure profile created by `_createDefaultAdventureData` and
mutated by every adventure action. -/
structure AdventureData where
  level : Nat
  xp : Nat
  xpNeeded : Nat
  stats : Stats
  inventory : Inventory
  equipment : Equipment
  location : String
  questsCompleted : List String
  monstersDefeated : Nat
  cooldowns : Cooldowns
deriving DecidableEq, Repr

/-- Item categories appearing in the item catalog. -/
inductive ItemType where
  | weapon
  | armor
  | accessory
  | consumable
  | material
deriving DecidableEq, Repr

/-- A static item-catalog entry.  `required_level = 0` models a missing
`required_level` field (JavaScript falsy check), `restore = 0` a missing
`restore` field. -/
structure Item where
  type : ItemType
  value : Nat
  required_level : Nat
  restore : Nat
deriving DecidableEq, Repr

/-- A non-negative fraction.  JavaScript decimal constants (such as drop
chances) and the `Math.random()` draws from `[0,1)` are exact decimal
fractions; representing them as explicit numerator/denominator pairs
keeps every engine computation inside `Nat` arithmetic.
`Frac.toRat` recovers the rational value. -/
structure Frac where
  num : Nat
  den : Nat
deriving DecidableEq, Repr

/-- The rational value of a fraction. -/
def Frac.toRat (f : Frac) : ℚ :=
  (f.num : ℚ) / (f.den : ℚ)

/-- The strict comparison `a < b` on fractions, by cross-multiplying. -/
def Frac.blt (a b : Frac) : Bool :=
  decide (a.num * b.den < b.num * a.den)

/-- A static monster-catalog entry; `goldMin`/`goldMax` embed the
`goldReward.min`/`goldReward.max` fields. -/
structure Monster where
  minLevel : Nat
  maxLevel : Nat
  health : Nat
  attack : Nat
  defense : Nat
  speed : Nat
  xpReward : Nat
  goldMin : Nat
  goldMax : Nat
  dropChance : Frac
  possibleDrops : List String
deriving DecidableEq, Repr

/-- A static location-catalog entry. -/
structure Location where
  safeZone : Bool
  minLevel : Nat
  commonMonsters : List String
  rareMonsters : List String
deriving DecidableEq, Repr

/-- Catalogs are id-keyed maps (`this.items` etc.); modelled as
association lists preserving insertion order. -/
abbrev ItemCatalog := List (String × Item)

abbrev MonsterCatalog := List (String × Monster)

abbrev LocationCatalog := List (String × Location)

/-- `Map.get` on a catalog: first binding of the id, if any. -/
def catGet {α : Type} (cat : List (String × α)) (id : String) : Option α :=
  (cat.find? (fun e => e.1 = id)).map (fun e => e.2)

/-! ## Leveling engine (`src/utils/LevelManager.js`) -/

/-- `this.maxLevel` in the `LevelManager` constructor. -/
def maxLevel : Nat := 248

/-- The level the leveling engine computes from total XP
(`Math.min(Math.floor(1 + Math.sqrt(userData.xp / 100)), this.maxLevel)`,
lines 202-206).  `Nat.sqrt (xp / 100)` is exactly
`⌊Real.sqrt (xp / 100)⌋`; see `levelFor_eq_real_formula`. -/
def levelFor (xp : Nat) : Nat :=
  min (1 + Nat.sqrt (xp / 100)) maxLevel

/-- A `UserLevelRecord` as stored by the leveling engine (the fields the
engine's arithmetic touches). -/
structure UserRecord where
  xp : Nat
  level : Nat
  messages : Nat
  groups : List String
deriving DecidableEq, Repr

/-- The default record created by `LevelManager.getUserData` for a new user. -/
def defaultUserRecord : UserRecord :=
  { xp := 0, level := 1, messages := 0, groups := [] }

/-- The state change of `LevelManager.addXP` once the cooldown gate has
passed and the XP amount has been fixed (lines 187-221): add the XP,
bump the message counter, record the group, and raise the level to
`levelFor` of the new total only when that is strictly larger. -/
def lmAddXP (u : UserRecord) (groupId : Option String) (amount : Nat) : UserRecord :=
  let xp2 := u.xp + amount
  let groups2 :=
    match groupId with
    | some g => if g ∈ u.groups then u.groups else u.groups ++ [g]
    | none => u.groups
  let newLevel := levelFor xp2
  { xp := xp2
    level := if u.level < newLevel then newLevel else u.level
    messages := u.messages + 1
    groups := groups2 }

/-- `LevelManager.getXpNeeded`: `Math.floor(100 * Math.pow(level, 2))`. -/
def getXpNeeded (level : ℤ) : ℤ :=
  100 * level ^ 2

/-- Result of `LevelManager.getProgress`. -/
structure Progress where
  currentXp : ℤ
  neededXp : ℤ
  percentage : ℤ
  isMaxLevel : Bool
deriving DecidableEq, Repr

/-- `LevelManager.getProgress` (lines 286-300).  The percentage is
`Math.min(100, Math.max(0, Math.floor((currentXp / neededXp) * 100)))`,
rendered with the exact rational floor. -/
def getProgress (level xp : ℤ) : Progress :=
  let currentLevelXp := getXpNeeded (level - 1)
  let nextLevelXp := getXpNeeded level
  let neededXp := nextLevelXp - currentLevelXp
  let currentXp := xp - currentLevelXp
  { currentXp := currentXp
    neededXp := neededXp
    percentage := min 100 (max 0 ⌊(currentXp : ℚ) / (neededXp : ℚ) * 100⌋)
    isMaxLevel := decide ((maxLevel : ℤ) ≤ level) }

/-! ## Adventure engine (`AdventureManager`) -/

/-- `this.COOLDOWNS.HUNT` (2 minutes, in ms). -/
def HUNT_COOLDOWN : Nat := 2 * 60 * 1000

/-- `this.COOLDOWNS.TRAIN` (30 minutes, in ms). -/
def TRAIN_COOLDOWN : Nat := 30 * 60 * 1000

/-- `this.COOLDOWNS.DAILY` (24 hours, in ms). -/
def DAILY_COOLDOWN : Nat := 24 * 60 * 60 * 1000

/-- `Math.ceil (a / b)` for the natural quantities the engine divides. -/
def divCeil (a b : Nat) : Nat :=
  (a + b - 1) / b

/-- One side of the combat damage formula,
`Math.max(1, attack - Math.floor(defense / 2))` (lines 982-989);
truncated `Nat` subtraction agrees with the integer computation once
clamped from below by 1 (see `dmg_eq_int_formula`). -/
def dmg (attack defense : Nat) : Nat :=
  max 1 (attack - defense / 2)

/-- The deterministic combat decision of `_monsterEncounter`
(lines 991-996): the user wins iff the turns they need to defeat the
monster do not exceed the turns the monster needs. -/
def combatVictory (s : Stats) (m : Monster) : Bool :=
  divCeil m.health (dmg s.attack m.defense) ≤ divCeil s.health (dmg m.attack s.defense)

/-- The XP threshold `_addXP` installs after reaching `level`:
`Math.floor(100 * Math.pow(1.2, level - 1))`, as the exact rational
`100 * (6/5)^(level-1)` floored. -/
def xpNeededFor (level : Nat) : Nat :=
  100 * 6 ^ (level - 1) / 5 ^ (level - 1)

/-- One iteration of `_addXP`'s level-up loop body (lines 1215-1230). -/
def levelUpStep (p : AdventureData) : AdventureData :=
  { p with
    xp := p.xp - p.xpNeeded
    level := p.level + 1
    stats :=
      { p.stats with
        maxHealth := p.stats.maxHealth + 10
        health := p.stats.maxHealth + 10
        attack := p.stats.attack + 2
        defense := p.stats.defense + 1
        speed := p.stats.speed + 1 }
    xpNeeded := xpNeededFor (p.level + 1) }

/-- The `while (userData.xp >= userData.xpNeeded)` loop of `_addXP`,
with explicit fuel.  Any fuel larger than the current `xp` is enough
while every visited `xpNeeded` is positive (as every threshold produced
by `xpNeededFor` is). -/
def levelLoop : Nat → AdventureData → AdventureData
  | 0, p => p
  | fuel + 1, p =>
    if p.xpNeeded ≤ p.xp then levelLoop fuel (levelUpStep p) else p

/-- `AdventureManager._addXP` (lines 1209-1233): add the XP, run the
level-up loop, and report whether at least one level was gained. -/
def addXP (p : AdventureData) (amount : Nat) : AdventureData × Bool :=
  let p1 := { p with xp := p.xp + amount }
  let p2 := levelLoop (p1.xp + 1) p1
  (p2, decide (p.level ≠ p2.level))

/-- `AdventureManager._addItemToInventory` (lines 1241-1262): bump the
quantity of the first entry with this id, or append a fresh entry. -/
def addItemQty : List InvEntry → String → Nat → List InvEntry
  | [], itemId, q => [⟨itemId, q⟩]
  | e :: rest, itemId, q =>
    if e.id = itemId then ⟨e.id, e.quantity + q⟩ :: rest
    else e :: addItemQty rest itemId q

/-- `AdventureManager._removeItemFromInventory` (lines 1270-1289):
decrement the first entry with this id, dropping it when the quantity
reaches zero; leave the list unchanged when the id is absent. -/
def removeItemQty : List InvEntry → String → Nat → List InvEntry
  | [], _, _ => []
  | e :: rest, itemId, q =>
    if e.id = itemId then
      if e.quantity ≤ q then rest else ⟨e.id, e.quantity - q⟩ :: rest
    else e :: removeItemQty rest itemId q

/-- Total quantity of an item id held in an inventory list. -/
def invQty : List InvEntry → String → Nat
  | [], _ => 0
  | e :: rest, itemId => (if e.id = itemId then e.quantity else 0) + invQty rest itemId

/-- Read an equipment slot, `userData.equipment[item.type]` for an
equipable type. -/
def slotGet (eq : Equipment) : ItemType → Option String
  | .weapon => eq.weapon
  | .armor => eq.armor
  | .accessory => eq.accessory
  | _ => none

/-- Write an equipment slot, `userData.equipment[item.type] = itemId`
for an equipable type. -/
def slotSet (eq : Equipment) (t : ItemType) (v : Option String) : Equipment :=
  match t with
  | .weapon => { eq with weapon := v }
  | .armor => { eq with armor := v }
  | .accessory => { eq with accessory := v }
  | _ => eq

/-- Structured stand-ins for the user-facing message strings. -/
inductive Msg where
  | huntCooldown (secondsLeft : Nat)
  | invalidLocation
  | safeZone
  | noSuitableMonster
  | nothingFound
  | victory (gold xp : Nat) (drop : Option String)
  | defeat
  | treasureFound (gold : Nat) (item : Option String)
  | trainCooldown (secondsLeft : Nat)
  | trainDone (xpGained : Nat)
  | dailyCooldown (secondsLeft : Nat)
  | dailyClaimed (gold xp : Nat)
  | itemNotFound
  | levelTooLow (required : Nat)
  | notEnoughGold (needed : Nat)
  | purchased
  | notInInventory
  | itemUnknown
  | consumed
  | equipped
  | cannotEquip
  | locationUnknown
  | traveled
  | internalError
deriving DecidableEq, Repr

/-- The `{success, message, ...}` object every action returns. -/
structure ActionResult where
  success : Bool
  msg : Msg
deriving DecidableEq, Repr

/-- Whether a message is one of the three cooldown rejections. -/
def isCooldownMsg : Msg → Bool
  | .huntCooldown _ => true
  | .trainCooldown _ => true
  | .dailyCooldown _ => true
  | _ => false

/-- The `Math.random()` draws a single `hunt` call can consume, each a
rational in `[0,1)`. -/
structure HuntRolls where
  encounterRoll : Frac
  monsterRoll : Frac
  goldRoll : Frac
  dropRoll : Frac
  dropIdxRoll : Frac
  treasureGoldRoll : Frac
  treasureItemRoll : Frac
  treasureIdxRoll : Frac
deriving DecidableEq, Repr

/-- `Math.floor(roll * len)` used to index into a list; for a roll
`num/den` this is exactly `num * len / den` (see `rollIdx_eq_floor`). -/
def rollIdx (roll : Frac) (len : Nat) : Nat :=
  roll.num * len / roll.den

/-- `AdventureManager._selectMonsterForLocation` (lines 1010-1054):
weighted pool of level-eligible monsters, common entries twice, rare
entries once, then a uniform pick. -/
def selectMonsterForLocation (monsters : MonsterCatalog) (loc : Location)
    (userLevel : Nat) (roll : Frac) : Option Monster :=
  let commonPool := loc.commonMonsters.foldr
    (fun id acc =>
      match catGet monsters id with
      | some m =>
        if m.minLevel ≤ userLevel ∧ userLevel ≤ m.maxLevel + 3 then m :: m :: acc else acc
      | none => acc) []
  let pool := commonPool ++ loc.rareMonsters.foldr
    (fun id acc =>
      match catGet monsters id with
      | some m =>
        if m.minLevel ≤ userLevel ∧ userLevel ≤ m.maxLevel + 2 then m :: acc else acc
      | none => acc) []
  if pool = [] then none
  else pool.get? (rollIdx roll pool.length)

/-- `AdventureManager._handleCombatVictory` (lines 1061-1125).  The
function's parameter is named `adventureData`, but the drop branch and
the level-up message still reference the old name `userData`, which is
not in scope: evaluating either line raises a `ReferenceError`, modelled
by the `Except.error` outcome.  The mutations performed before the
faulting line (gold, XP/levels, `monstersDefeated`) are already applied
to the shared in-memory record and are therefore kept in the returned
state. -/
def handleCombatVictory (items : ItemCatalog) (p : AdventureData) (m : Monster)
    (goldRoll dropRoll dropIdxRoll : Frac) : Except Unit ActionResult × AdventureData :=
  let goldReward := m.goldMin + rollIdx goldRoll (m.goldMax - m.goldMin + 1)
  let p1 := { p with inventory := { p.inventory with gold := p.inventory.gold + goldReward } }
  let p2 := (addXP p1 m.xpReward).1
  let leveledUp := (addXP p1 m.xpReward).2
  let p3 := { p2 with monstersDefeated := p2.monstersDefeated + 1 }
  let afterDrop : Except Unit (Option String) :=
    if dropRoll.blt m.dropChance ∧ m.possibleDrops ≠ [] then
      match m.possibleDrops.get? (rollIdx dropIdxRoll m.possibleDrops.length) with
      | some dropId =>
        match catGet items dropId with
        | some _ => Except.error ()
        | none => Except.ok (some dropId)
      | none => Except.ok none
    else Except.ok none
  match afterDrop with
  | Except.error _ => (Except.error (), p3)
  | Except.ok droppedItem =>
    if leveledUp then (Except.error (), p3)
    else (Except.ok ⟨true, Msg.victory goldReward m.xpReward droppedItem⟩, p3)

/-- `AdventureManager._handleCombatDefeat` (lines 1132-1145): health is
cut to `Math.max(1, Math.floor(maxHealth * 0.25))`; no other change. -/
def handleCombatDefeat (p : AdventureData) : ActionResult × AdventureData :=
  (⟨false, Msg.defeat⟩,
    { p with stats := { p.stats with health := max 1 (p.stats.maxHealth / 4) } })

/-- `AdventureManager._monsterEncounter` (lines 970-1003). -/
def monsterEncounter (items : ItemCatalog) (monsters : MonsterCatalog)
    (p : AdventureData) (loc : Location) (r : HuntRolls) :
    Except Unit ActionResult × AdventureData :=
  match selectMonsterForLocation monsters loc p.level r.monsterRoll with
  | none => (Except.ok ⟨false, Msg.noSuitableMonster⟩, p)
  | some m =>
    if combatVictory p.stats m then
      handleCombatVictory items p m r.goldRoll r.dropRoll r.dropIdxRoll
    else
      (Except.ok (handleCombatDefeat p).1, (handleCombatDefeat p).2)

/-- `AdventureManager._findTreasure` (lines 1152-1202). -/
def findTreasure (items : ItemCatalog) (p : AdventureData) (r : HuntRolls) :
    ActionResult × AdventureData :=
  let treasureQuality := min 5 (max 1 (p.level / 5 + 1))
  let goldBase := 20 * treasureQuality
  let goldReward := goldBase + rollIdx r.treasureGoldRoll goldBase
  let p1 := { p with inventory := { p.inventory with gold := p.inventory.gold + goldReward } }
  if r.treasureItemRoll.blt ⟨4, 10⟩ then
    let possibleItems :=
      (items.filter (fun e =>
        (e.2.required_level = 0 ∨ e.2.required_level ≤ p.level) ∧
          e.2.value ≤ goldBase * 2)).map (fun e => e.1)
    match possibleItems.get? (rollIdx r.treasureIdxRoll possibleItems.length) with
    | some foundItemId =>
      let p2 := { p1 with inventory :=
        { p1.inventory with items := addItemQty p1.inventory.items foundItemId 1 } }
      (⟨true, Msg.treasureFound goldReward (some foundItemId)⟩, p2)
    | none => (⟨true, Msg.treasureFound goldReward none⟩, p1)
  else
    (⟨true, Msg.treasureFound goldReward none⟩, p1)

/-- The body of `AdventureManager.hunt` (lines 888-955), i.e. everything
inside the `try` block once the profile has been read; an `Except.error`
outcome is an exception reaching the `catch`. -/
def huntBody (items : ItemCatalog) (monsters : MonsterCatalog)
    (locations : LocationCatalog) (now : Nat) (r : HuntRolls)
    (p : AdventureData) : Except Unit ActionResult × AdventureData :=
  if now < p.cooldowns.hunt then
    (Except.ok ⟨false, Msg.huntCooldown (divCeil (p.cooldowns.hunt - now) 1000)⟩, p)
  else
    let locationId := if p.location = "" then "forest" else p.location
    match catGet locations locationId with
    | none => (Except.ok ⟨false, Msg.invalidLocation⟩, p)
    | some loc =>
      if loc.safeZone then (Except.ok ⟨false, Msg.safeZone⟩, p)
      else if r.encounterRoll.blt ⟨7, 10⟩ then
        match monsterEncounter items monsters p loc r with
        | (Except.ok res, p2) =>
          (Except.ok res,
            { p2 with cooldowns := { p2.cooldowns with hunt := now + HUNT_COOLDOWN } })
        | (Except.error e, p2) => (Except.error e, p2)
      else if r.encounterRoll.blt ⟨9, 10⟩ then
        let (res, p2) := findTreasure items p r
        (Except.ok res,
          { p2 with cooldowns := { p2.cooldowns with hunt := now + HUNT_COOLDOWN } })
      else
        (Except.ok ⟨true, Msg.nothingFound⟩,
          { p with cooldowns := { p.cooldowns with hunt := now + 30000 } })

/-- `AdventureManager.hunt`: the `try`/`catch` wrapper around
`huntBody`.  A caught exception becomes the generic failure result; the
in-place mutations already applied to the shared record remain. -/
def hunt (items : ItemCatalog) (monsters : MonsterCatalog)
    (locations : LocationCatalog) (now : Nat) (r : HuntRolls)
    (p : AdventureData) : ActionResult × AdventureData :=
  match huntBody items monsters locations now r p with
  | (Except.ok res, p2) => (res, p2)
  | (Except.error _, p2) => (⟨false, Msg.internalError⟩, p2)

/-- The `Math.random()` draws a `train` call can consume. -/
structure TrainRolls where
  xpRoll : Frac
  statChanceRoll : Frac
  statIdxRoll : Frac
deriving DecidableEq, Repr

/-- `AdventureManager.train` (lines 1303-1384).  XP gained is
`15 + Math.floor(Math.random() * 10)`; with probability 0.2 one of
attack/defense/speed/maxHealth (picked uniformly) is boosted. -/
def train (now : Nat) (r : TrainRolls) (p : AdventureData) :
    ActionResult × AdventureData :=
  if now < p.cooldowns.train then
    (⟨false, Msg.trainCooldown (divCeil (p.cooldowns.train - now) 1000)⟩, p)
  else
    let xpGained := 15 + rollIdx r.xpRoll 10
    let p1 :=
      if r.statChanceRoll.blt ⟨2, 10⟩ then
        match rollIdx r.statIdxRoll 4 with
        | 0 => { p with stats := { p.stats with attack := p.stats.attack + 1 } }
        | 1 => { p with stats := { p.stats with defense := p.stats.defense + 1 } }
        | 2 => { p with stats := { p.stats with speed := p.stats.speed + 1 } }
        | _ => { p with stats := { p.stats with
                  maxHealth := p.stats.maxHealth + 5
                  health := p.stats.health + 5 } }
      else p
    let p2 := (addXP p1 xpGained).1
    let p3 := { p2 with cooldowns := { p2.cooldowns with train := now + TRAIN_COOLDOWN } }
    (⟨true, Msg.trainDone xpGained⟩, p3)

/-- `AdventureManager.claimDaily` (lines 1996-2058): deterministic
rewards `gold = 100 + 10 * level`, `xp = 20 + 5 * level`. -/
def claimDaily (now : Nat) (p : AdventureData) : ActionResult × AdventureData :=
  if now < p.cooldowns.daily then
    (⟨false, Msg.dailyCooldown (divCeil (p.cooldowns.daily - now) 1000)⟩, p)
  else
    let goldReward := 100 + p.level * 10
    let xpReward := 20 + p.level * 5
    let p1 := { p with inventory := { p.inventory with gold := p.inventory.gold + goldReward } }
    let p2 := (addXP p1 xpReward).1
    let p3 := { p2 with cooldowns := { p2.cooldowns with daily := now + DAILY_COOLDOWN } }
    (⟨true, Msg.dailyClaimed goldReward xpReward⟩, p3)

/-- `AdventureManager.buyItem` (lines 1391-1446). -/
def buyItem (items : ItemCatalog) (p : AdventureData) (itemId : String) :
    ActionResult × AdventureData :=
  match catGet items itemId with
  | none => (⟨false, Msg.itemNotFound⟩, p)
  | some item =>
    if item.required_level ≠ 0 ∧ p.level < item.required_level then
      (⟨false, Msg.levelTooLow item.required_level⟩, p)
    else if p.inventory.gold < item.value then
      (⟨false, Msg.notEnoughGold item.value⟩, p)
    else
      (⟨true, Msg.purchased⟩,
        { p with inventory :=
          { gold := p.inventory.gold - item.value
            items := addItemQty p.inventory.items itemId 1 } })

/-- `AdventureManager._useConsumable` (lines 1548-1584): apply the
restore effect clamped at `maxHealth`, then remove one unit. -/
def useConsumable (p : AdventureData) (itemId : String) (item : Item) :
    ActionResult × AdventureData :=
  let p1 :=
    if item.restore ≠ 0 then
      { p with stats := { p.stats with
          health := min p.stats.maxHealth (p.stats.health + item.restore) } }
    else p
  (⟨true, Msg.consumed⟩,
    { p1 with inventory :=
      { p1.inventory with items := removeItemQty p1.inventory.items itemId 1 } })

/-- `AdventureManager.equipItem` (lines 1469-1539). -/
def equipItem (items : ItemCatalog) (p : AdventureData) (itemId : String) :
    ActionResult × AdventureData :=
  match p.inventory.items.find? (fun e => e.id = itemId) with
  | none => (⟨false, Msg.notInInventory⟩, p)
  | some invEntry =>
    if invEntry.quantity < 1 then (⟨false, Msg.notInInventory⟩, p)
    else
      match catGet items itemId with
      | none => (⟨false, Msg.itemUnknown⟩, p)
      | some item =>
        if item.type = ItemType.consumable then useConsumable p itemId item
        else if item.type = ItemType.weapon ∨ item.type = ItemType.armor ∨
            item.type = ItemType.accessory then
          let currentItem := slotGet p.equipment item.type
          let eq2 := slotSet p.equipment item.type (some itemId)
          let inv1 := removeItemQty p.inventory.items itemId 1
          let inv2 :=
            match currentItem with
            | some c => addItemQty inv1 c 1
            | none => inv1
          (⟨true, Msg.equipped⟩,
            { p with equipment := eq2, inventory := { p.inventory with items := inv2 } })
        else (⟨false, Msg.cannotEquip⟩, p)

/-- `AdventureManager.travel` (lines 1591-1631). -/
def travel (locations : LocationCatalog) (p : AdventureData) (locationId : String) :
    ActionResult × AdventureData :=
  match catGet locations locationId with
  | none => (⟨false, Msg.locationUnknown⟩, p)
  | some loc =>
    if loc.minLevel ≠ 0 ∧ p.level < loc.minLevel then
      (⟨false, Msg.levelTooLow loc.minLevel⟩, p)
    else
      (⟨true, Msg.traveled⟩, { p with location := locationId })

/-! ## Sample static content, mirroring `getDefaultItems`,
`getDefaultMonsters` and `getDefaultLocations` (the fields the engine
reads). -/

/-- The profile created by `_createDefaultAdventureData`. -/
def defaultAdventureData : AdventureData :=
  { level := 1
    xp := 0
    xpNeeded := 100
    stats := { health := 100, maxHealth := 100, attack := 10, defense := 5, speed := 8 }
    inventory := { gold := 100, items := [] }
    equipment := { weapon := none, armor := none, accessory := none }
    location := "town"
    questsCompleted := []
    monstersDefeated := 0
    cooldowns := { hunt := 0, train := 0, daily := 0, quest := 0 } }

/-- A slice of the default item catalog. -/
def sampleItems : ItemCatalog :=
  [ ("sword_1", { type := .weapon, value := 50, required_level := 1, restore := 0 }),
    ("sword_2", { type := .weapon, value := 200, required_level := 3, restore := 0 }),
    ("axe_1", { type := .weapon, value := 300, required_level := 5, restore := 0 }),
    ("armor_1", { type := .armor, value := 100, required_level := 1, restore := 0 }),
    ("armor_2", { type := .armor, value := 350, required_level := 5, restore := 0 }),
    ("ring_hp", { type := .accessory, value := 150, required_level := 3, restore := 0 }),
    ("potion_health", { type := .consumable, value := 25, required_level := 1, restore := 50 }),
    ("food_basic", { type := .consumable, value := 10, required_level := 1, restore := 20 }),
    ("mat_leather", { type := .material, value := 5, required_level := 0, restore := 0 }),
    ("mat_herb", { type := .material, value := 5, required_level := 0, restore := 0 }) ]

/-- A slice of the default monster catalog. -/
def sampleMonsters : MonsterCatalog :=
  [ ("slime",
      { minLevel := 1, maxLevel := 3, health := 20, attack := 5, defense := 2, speed := 3,
        xpReward := 10, goldMin := 5, goldMax := 15, dropChance := ⟨3, 10⟩,
        possibleDrops := ["potion_health", "mat_herb"] }),
    ("rat",
      { minLevel := 1, maxLevel := 4, health := 15, attack := 7, defense := 1, speed := 8,
        xpReward := 8, goldMin := 3, goldMax := 10, dropChance := ⟨4, 10⟩,
        possibleDrops := ["mat_leather"] }),
    ("wolf",
      { minLevel := 2, maxLevel := 5, health := 40, attack := 10, defense := 3, speed := 10,
        xpReward := 20, goldMin := 10, goldMax := 25, dropChance := ⟨4, 10⟩,
        possibleDrops := ["potion_health", "mat_leather"] }),
    ("goblin",
      { minLevel := 3, maxLevel := 7, health := 60, attack := 15, defense := 5, speed := 7,
        xpReward := 35, goldMin := 15, goldMax := 40, dropChance := ⟨5, 10⟩,
        possibleDrops := ["potion_health", "mat_iron", "sword_1"] }) ]

/-- A slice of the default location catalog. -/
def sampleLocations : LocationCatalog :=
  [ ("town",
      { safeZone := true, minLevel := 1, commonMonsters := [], rareMonsters := [] }),
    ("forest",
      { safeZone := false, minLevel := 1,
        commonMonsters := ["slime", "rat", "wolf"], rareMonsters := ["goblin"] }),
    ("cave",
      { safeZone := false, minLevel := 5,
        commonMonsters := ["goblin", "skeleton"], rareMonsters := ["troll"] }) ]

/-! ## Helper lemmas -/

/-- `Frac.blt` is the strict order of the rational values. -/
lemma Frac.blt_iff (a b : Frac) (ha : 0 < a.den) (hb : 0 < b.den) :
    a.blt b = true ↔ a.toRat < b.toRat := by
  simp only [Frac.blt, Frac.toRat, decide_eq_true_eq]
  rw [div_lt_div_iff₀ (by exact_mod_cast ha) (by exact_mod_cast hb)]
  exact_mod_cast Iff.rfl

/-- `rollIdx` is exactly `Math.floor(roll * len)` on the rational value
of the roll. -/
lemma rollIdx_eq_floor (r : Frac) (len : Nat) :
    (rollIdx r len : ℤ) = ⌊r.toRat * (len : ℚ)⌋ := by
  have h : r.toRat * (len : ℚ) = ((r.num * len : ℕ) : ℚ) / ((r.den : ℕ) : ℚ) := by
    simp only [Frac.toRat]
    push_cast
    ring
  rw [h, Rat.floor_natCast_div_natCast]
  simp only [rollIdx]
  exact Int.natCast_div _ _

/-- `divCeil` is the ceiling of the exact rational quotient. -/
lemma divCeil_cast_eq_ceil (a b : Nat) (hb : 0 < b) :
    (divCeil a b : ℤ) = ⌈(a : ℚ) / (b : ℚ)⌉ := by
  have hb1 : 1 ≤ b := hb
  have hbq : (0 : ℚ) < (b : ℚ) := by exact_mod_cast hb
  have hd := Nat.div_add_mod (a + b - 1) b
  have hm : (a + b - 1) % b < b := Nat.mod_lt _ hb
  set z := (a + b - 1) / b with hz
  set r := (a + b - 1) % b with hr
  have hab : 1 ≤ a + b := by omega
  have hd' : b * z + r = a + b - 1 := hd
  have hdz : (b : ℤ) * z + r = (a : ℤ) + b - 1 := by
    zify [hab] at hd'
    exact hd'
  have hrb : (r : ℤ) < b := by exact_mod_cast hm
  have h1 : (b : ℤ) * z ≤ a + b - 1 := by linarith
  have h2 : (a : ℤ) ≤ (b : ℤ) * z := by linarith
  have hzc : (divCeil a b : ℤ) = (z : ℤ) := by
    simp only [divCeil, hz]
  rw [hzc]
  symm
  rw [Int.ceil_eq_iff]
  constructor
  · rw [lt_div_iff₀ hbq]
    have h1q : (b : ℚ) * z ≤ (a : ℚ) + b - 1 := by exact_mod_cast h1
    push_cast
    nlinarith
  · rw [div_le_iff₀ hbq]
    have h2q : (a : ℚ) ≤ (b : ℚ) * z := by exact_mod_cast h2
    push_cast
    nlinarith

/-- The truncated-subtraction damage formula agrees with the source's
integer computation `Math.max(1, attack - Math.floor(defense / 2))`. -/
lemma dmg_eq_int_formula (attack defense : Nat) :
    (dmg attack defense : ℤ) = max 1 ((attack : ℤ) - (defense : ℤ) / 2) := by
  simp only [dmg]
  omega

/-- Both combat damages are positive. -/
lemma dmg_pos (attack defense : Nat) : 0 < dmg attack defense :=
  lt_of_lt_of_le Nat.zero_lt_one (le_max_left _ _)

/-! ## Claims -/

/-- C1: hunt combat is resolved by the fixed formula — the damages are
`max(1, attack - floor(defense/2))` on each side, and the user wins iff
`ceil(monsterHealth / userDamage) ≤ ceil(userHealth / monsterDamage)`;
in particular a tie of the two turn counts is a user win. -/
theorem claim_C1_combat_formula (s : Stats) (m : Monster) :
    ((dmg s.attack m.defense : ℤ) = max 1 ((s.attack : ℤ) - (m.defense : ℤ) / 2) ∧
      (dmg m.attack s.defense : ℤ) = max 1 ((m.attack : ℤ) - (s.defense : ℤ) / 2)) ∧
    (combatVictory s m = true ↔
      ⌈(m.health : ℚ) / (dmg s.attack m.defense : ℚ)⌉ ≤
        ⌈(s.health : ℚ) / (dmg m.attack s.defense : ℚ)⌉) ∧
    (⌈(m.health : ℚ) / (dmg s.attack m.defense : ℚ)⌉ =
        ⌈(s.health : ℚ) / (dmg m.attack s.defense : ℚ)⌉ →
      combatVictory s m = true) := by
  have hu := dmg_pos s.attack m.defense
  have hm := dmg_pos m.attack s.defense
  have key : combatVictory s m = true ↔
      ⌈(m.health : ℚ) / (dmg s.attack m.defense : ℚ)⌉ ≤
        ⌈(s.health : ℚ) / (dmg m.attack s.defense : ℚ)⌉ := by
    rw [← divCeil_cast_eq_ceil _ _ hu, ← divCeil_cast_eq_ceil _ _ hm]
    simp only [combatVictory, decide_eq_true_eq, Nat.cast_le]
  exact ⟨⟨dmg_eq_int_formula _ _, dmg_eq_int_formula _ _⟩, key,
    fun h => key.mpr (le_of_eq h)⟩

/-- Witness for C1 at a concrete tie: both sides need 100 turns and the
user wins. -/
theorem claim_C1_witness :
    (⌈((1000 : Nat) : ℚ) / (dmg 10 0 : ℚ)⌉ =
      ⌈((100 : Nat) : ℚ) / (dmg 3 5 : ℚ)⌉) ∧
    combatVictory
      { health := 100, maxHealth := 100, attack := 10, defense := 5, speed := 8 }
      { minLevel := 1, maxLevel := 3, health := 1000, attack := 3, defense := 0,
        speed := 3, xpReward := 10, goldMin := 5, goldMax := 15,
        dropChance := ⟨3, 10⟩, possibleDrops := [] } = true := by
  have hceil : (⌈((1000 : Nat) : ℚ) / (dmg 10 0 : ℚ)⌉ =
      ⌈((100 : Nat) : ℚ) / (dmg 3 5 : ℚ)⌉) := by
    rw [← divCeil_cast_eq_ceil _ _ (dmg_pos 10 0), ← divCeil_cast_eq_ceil _ _ (dmg_pos 3 5)]
    decide
  refine ⟨hceil, ?_⟩
  exact (claim_C1_combat_formula
    { health := 100, maxHealth := 100, attack := 10, defense := 5, speed := 8 }
    { minLevel := 1, maxLevel := 3, health := 1000, attack := 3, defense := 0,
      speed := 3, xpReward := 10, goldMin := 5, goldMax := 15,
      dropChance := ⟨3, 10⟩, possibleDrops := [] }).2.2 hceil

/-- `xpNeededFor` is the exact floor of `100 * 1.2 ^ (level - 1)`. -/
lemma xpNeededFor_eq_floor (l : Nat) :
    (xpNeededFor l : ℤ) = ⌊(100 : ℚ) * ((6 : ℚ) / 5) ^ (l - 1)⌋ := by
  have h : (100 : ℚ) * ((6 : ℚ) / 5) ^ (l - 1) =
      (((100 * 6 ^ (l - 1) : ℕ) : ℤ) : ℚ) / ((5 ^ (l - 1) : ℕ) : ℚ) := by
    push_cast
    rw [div_pow]
    ring
  rw [h, Rat.floor_intCast_div_natCast]
  simp only [xpNeededFor]
  exact Int.natCast_div _ _

/-- C2: the adventure level-up routine adds the grant to `xp`, then
while `xp ≥ xpNeeded` it subtracts `xpNeeded`, increments the level,
adds 10 to `maxHealth`, heals to full, adds 2/1/1 to
attack/defense/speed and recomputes `xpNeeded = ⌊100 * 1.2^(level-1)⌋`;
the loop absorbs multi-level jumps.  The concrete scenario
`level=1, xp=95, xpNeeded=100` plus 10 XP ends at
`level=2, xp=5, xpNeeded=120` with the stat deltas applied and
`health = maxHealth`. -/
theorem claim_C2_adventure_level_up :
    (∀ p : AdventureData, p.xpNeeded ≤ p.xp → ∀ fuel : Nat,
      levelLoop (fuel + 1) p = levelLoop fuel (levelUpStep p)) ∧
    (∀ p : AdventureData, p.xp < p.xpNeeded → ∀ fuel : Nat, levelLoop fuel p = p) ∧
    (∀ p : AdventureData, ∀ amount : Nat,
      (addXP p amount).1 = levelLoop (p.xp + amount + 1) { p with xp := p.xp + amount }) ∧
    (∀ l : Nat, (xpNeededFor l : ℤ) = ⌊(100 : ℚ) * ((6 : ℚ) / 5) ^ (l - 1)⌋) ∧
    (addXP { defaultAdventureData with xp := 95 } 10).1 =
      { level := 2, xp := 5, xpNeeded := 120,
        stats := { health := 110, maxHealth := 110, attack := 12, defense := 6, speed := 9 },
        inventory := { gold := 100, items := [] },
        equipment := { weapon := none, armor := none, accessory := none },
        location := "town", questsCompleted := [], monstersDefeated := 0,
        cooldowns := { hunt := 0, train := 0, daily := 0, quest := 0 } } ∧
    (addXP defaultAdventureData 250).1.level = 3 ∧
    (addXP defaultAdventureData 250).1.xp = 30 := by
  refine ⟨?_, ?_, ?_, xpNeededFor_eq_floor, by decide, by decide, by decide⟩
  · intro p h fuel
    simp [levelLoop, h]
  · intro p h fuel
    cases fuel with
    | zero => rfl
    | succ n =>
      simp only [levelLoop]
      rw [if_neg (by omega)]
  · intro p amount
    rfl

/-- Witness for C2: the loop iterates once on a profile whose XP meets
the threshold, and exits immediately below the threshold. -/
theorem claim_C2_witness :
    ({ defaultAdventureData with xp := 100 }.xpNeeded ≤
        { defaultAdventureData with xp := 100 }.xp ∧
      levelLoop 1 { defaultAdventureData with xp := 100 } =
        levelLoop 0 (levelUpStep { defaultAdventureData with xp := 100 })) ∧
    (defaultAdventureData.xp < defaultAdventureData.xpNeeded ∧
      levelLoop 5 defaultAdventureData = defaultAdventureData) :=
  ⟨⟨by decide, claim_C2_adventure_level_up.1 _ (by decide) 0⟩,
    ⟨by decide, claim_C2_adventure_level_up.2.1 _ (by decide) 5⟩⟩

/-- Dividing the radicand by 100 divides the integer square root by 10. -/
lemma nat_sqrt_div_100 (n : Nat) : Nat.sqrt (n / 100) = Nat.sqrt n / 10 := by
  apply le_antisymm
  · rw [Nat.le_div_iff_mul_le (by norm_num : 0 < 10), Nat.le_sqrt]
    calc Nat.sqrt (n / 100) * 10 * (Nat.sqrt (n / 100) * 10)
        = Nat.sqrt (n / 100) * Nat.sqrt (n / 100) * 100 := by ring
      _ ≤ n / 100 * 100 := Nat.mul_le_mul_right 100 (Nat.sqrt_le _)
      _ ≤ n := Nat.div_mul_le_self n 100
  · rw [Nat.le_sqrt, Nat.le_div_iff_mul_le (by norm_num : 0 < 100)]
    calc Nat.sqrt n / 10 * (Nat.sqrt n / 10) * 100
        = Nat.sqrt n / 10 * 10 * (Nat.sqrt n / 10 * 10) := by ring
      _ ≤ Nat.sqrt n * Nat.sqrt n :=
        Nat.mul_le_mul (Nat.div_mul_le_self _ _) (Nat.div_mul_le_self _ _)
      _ ≤ n := Nat.sqrt_le n

/-- `levelFor` is exactly the real-valued spec formula
`min(maxLevel, floor(1 + sqrt(totalXp / 100)))`. -/
lemma levelFor_eq_real_formula (n : Nat) :
    (levelFor n : ℤ) = min ((maxLevel : ℕ) : ℤ) ⌊1 + Real.sqrt ((n : ℝ) / 100)⌋ := by
  have hsq : Real.sqrt ((n : ℝ) / 100) = Real.sqrt (n : ℝ) / 10 := by
    rw [Real.sqrt_div' (n : ℝ) (by norm_num : (0 : ℝ) ≤ 100),
      show (100 : ℝ) = 10 ^ 2 by norm_num, Real.sqrt_sq (by norm_num : (0 : ℝ) ≤ 10)]
  have hfloor : ⌊1 + Real.sqrt ((n : ℝ) / 100)⌋ = 1 + (Nat.sqrt n / 10 : ℕ) := by
    rw [add_comm, Int.floor_add_one, hsq]
    have hnn : (0 : ℝ) ≤ Real.sqrt (n : ℝ) / 10 := by positivity
    rw [← Int.natCast_floor_eq_floor hnn]
    rw [show (10 : ℝ) = ((10 : ℕ) : ℝ) by norm_num, Nat.floor_div_nat,
      Real.nat_floor_real_sqrt_eq_nat_sqrt]
    omega
  rw [hfloor]
  simp only [levelFor, maxLevel, nat_sqrt_div_100]
  omega

/-- `levelFor` is monotone in total XP. -/
lemma levelFor_mono {a b : Nat} (h : a ≤ b) : levelFor a ≤ levelFor b := by
  have hdiv : a / 100 ≤ b / 100 := Nat.div_le_div_right h
  have := Nat.sqrt_le_sqrt hdiv
  simp only [levelFor]
  omega

/-- C3: after every leveling-engine XP grant the stored level equals
`min(maxLevel, floor(1 + sqrt(totalXp / 100)))` with `maxLevel = 248`
(the invariant is preserved by `addXP` and holds for a fresh record),
and this level is monotone non-decreasing in total XP. -/
theorem claim_C3_level_invariant :
    (∀ (u : UserRecord) (g : Option String) (amount : Nat),
      u.level = levelFor u.xp →
        (lmAddXP u g amount).level = levelFor (lmAddXP u g amount).xp) ∧
    (∀ a b : Nat, a ≤ b → levelFor a ≤ levelFor b) ∧
    defaultUserRecord.level = levelFor defaultUserRecord.xp ∧
    maxLevel = 248 ∧
    (∀ n : Nat, (levelFor n : ℤ) = min ((maxLevel : ℕ) : ℤ) ⌊1 + Real.sqrt ((n : ℝ) / 100)⌋) := by
  refine ⟨?_, fun a b h => levelFor_mono h, by decide, rfl, levelFor_eq_real_formula⟩
  intro u g amount h
  have hlvl : (lmAddXP u g amount).level =
      if u.level < levelFor (u.xp + amount) then levelFor (u.xp + amount) else u.level := rfl
  have hxp : (lmAddXP u g amount).xp = u.xp + amount := rfl
  rw [hlvl, hxp]
  by_cases hlt : u.level < levelFor (u.xp + amount)
  · rw [if_pos hlt]
  · rw [if_neg hlt]
    have hmono : levelFor u.xp ≤ levelFor (u.xp + amount) :=
      levelFor_mono (Nat.le_add_right _ _)
    omega

/-- Witness for C3: the invariant holds for a fresh record and is
preserved by a concrete 150 XP grant; monotonicity at 0 ≤ 500. -/
theorem claim_C3_witness :
    (defaultUserRecord.level = levelFor defaultUserRecord.xp ∧
      (lmAddXP defaultUserRecord none 150).level =
        levelFor (lmAddXP defaultUserRecord none 150).xp) ∧
    ((0 : Nat) ≤ 500 ∧ levelFor 0 ≤ levelFor 500) :=
  ⟨⟨by decide, claim_C3_level_invariant.1 defaultUserRecord none 150 (by decide)⟩,
    ⟨by decide, claim_C3_level_invariant.2.1 0 500 (by decide)⟩⟩

/-- A successful (non-thrown) combat-victory result is always a
`victory` message. -/
lemma handleCombatVictory_ok_msg {items : ItemCatalog} {p : AdventureData}
    {m : Monster} {g d di : Frac} {res : ActionResult} {p2 : AdventureData}
    (h : handleCombatVictory items p m g d di = (Except.ok res, p2)) :
    ∃ gr xr dr, res = ⟨true, Msg.victory gr xr dr⟩ := by
  unfold handleCombatVictory at h
  dsimp only at h
  split at h
  · simp at h
  · split at h
    · simp at h
    · simp only [Prod.mk.injEq, Except.ok.injEq] at h
      obtain ⟨h1, -⟩ := h
      exact ⟨_, _, _, h1.symm⟩

/-- A non-thrown monster-encounter result never carries a cooldown
message. -/
lemma monsterEncounter_ok_msg {items : ItemCatalog} {monsters : MonsterCatalog}
    {p : AdventureData} {loc : Location} {r : HuntRolls} {res : ActionResult}
    {p2 : AdventureData}
    (h : monsterEncounter items monsters p loc r = (Except.ok res, p2)) :
    isCooldownMsg res.msg = false := by
  unfold monsterEncounter at h
  split at h
  · simp only [Prod.mk.injEq, Except.ok.injEq] at h
    obtain ⟨h1, -⟩ := h
    rw [← h1]
    rfl
  · split at h
    · obtain ⟨gr, xr, dr, rfl⟩ := handleCombatVictory_ok_msg h
      rfl
    · simp only [Prod.mk.injEq, Except.ok.injEq] at h
      obtain ⟨h1, -⟩ := h
      rw [← h1]
      rfl

/-- A treasure result never carries a cooldown message. -/
lemma findTreasure_not_cooldown (items : ItemCatalog) (p : AdventureData)
    (r : HuntRolls) : isCooldownMsg (findTreasure items p r).1.msg = false := by
  unfold findTreasure
  dsimp only
  split
  · split
    · rfl
    · rfl
  · rfl

/-- C5: each of the hunt/train/daily cooldown tracks gates only its own
action: with the track's timestamp strictly in the future the action
returns the failing cooldown result and leaves the profile unchanged;
with the timestamp at or before `now` the action never produces a
cooldown rejection (for every profile, so an active cooldown on any
other track never blocks it). -/
theorem claim_C5_cooldown_gating :
    (∀ (items : ItemCatalog) (monsters : MonsterCatalog)
        (locations : LocationCatalog) (now : Nat) (r : HuntRolls)
        (p : AdventureData), now < p.cooldowns.hunt →
      hunt items monsters locations now r p =
        (⟨false, Msg.huntCooldown (divCeil (p.cooldowns.hunt - now) 1000)⟩, p)) ∧
    (∀ (items : ItemCatalog) (monsters : MonsterCatalog)
        (locations : LocationCatalog) (now : Nat) (r : HuntRolls)
        (p : AdventureData), p.cooldowns.hunt ≤ now →
      isCooldownMsg (hunt items monsters locations now r p).1.msg = false) ∧
    (∀ (now : Nat) (r : TrainRolls) (p : AdventureData), now < p.cooldowns.train →
      train now r p =
        (⟨false, Msg.trainCooldown (divCeil (p.cooldowns.train - now) 1000)⟩, p)) ∧
    (∀ (now : Nat) (r : TrainRolls) (p : AdventureData), p.cooldowns.train ≤ now →
      isCooldownMsg (train now r p).1.msg = false) ∧
    (∀ (now : Nat) (p : AdventureData), now < p.cooldowns.daily →
      claimDaily now p =
        (⟨false, Msg.dailyCooldown (divCeil (p.cooldowns.daily - now) 1000)⟩, p)) ∧
    (∀ (now : Nat) (p : AdventureData), p.cooldowns.daily ≤ now →
      isCooldownMsg (claimDaily now p).1.msg = false) := by
  refine ⟨?_, ?_, ?_, ?_, ?_, ?_⟩
  · intro items monsters locations now r p h
    unfold hunt huntBody
    rw [if_pos h]
  · intro items monsters locations now r p h
    unfold hunt huntBody
    rw [if_neg (by omega : ¬ now < p.cooldowns.hunt)]
    cases hcat : catGet locations (if p.location = "" then "forest" else p.location) with
    | none => simp [hcat, isCooldownMsg]
    | some loc =>
      cases hsz : loc.safeZone with
      | true => simp [hcat, hsz, isCooldownMsg]
      | false =>
        cases henc : r.encounterRoll.blt ⟨7, 10⟩ with
        | true =>
          rcases hme : monsterEncounter items monsters p loc r with ⟨exc, pe⟩
          cases exc with
          | ok res =>
            simp only [hcat, hsz, henc, hme, Bool.false_eq_true, if_false, if_true]
            exact monsterEncounter_ok_msg hme
          | error e => simp [hcat, hsz, henc, hme, isCooldownMsg]
        | false =>
          cases henc2 : r.encounterRoll.blt ⟨9, 10⟩ with
          | true =>
            simp only [hcat, hsz, henc, henc2, Bool.false_eq_true, if_false, if_true]
            exact findTreasure_not_cooldown items p r
          | false => simp [hcat, hsz, henc, henc2, isCooldownMsg]
  · intro now r p h
    unfold train
    rw [if_pos h]
  · intro now r p h
    unfold train
    rw [if_neg (by omega : ¬ now < p.cooldowns.train)]
    rfl
  · intro now p h
    unfold claimDaily
    rw [if_pos h]
  · intro now p h
    unfold claimDaily
    rw [if_neg (by omega : ¬ now < p.cooldowns.daily)]
    rfl

/-- Witness for C5 at concrete inputs: each action blocked at
`now = 1000` with its own cooldown at 5000 (the other tracks clear), and
each action not cooldown-rejected once its own timestamp has passed even
though every other track is active far in the future. -/
theorem claim_C5_witness :
    (1000 < 5000 ∧
      hunt sampleItems sampleMonsters sampleLocations 1000
        ⟨⟨0, 10⟩, ⟨0, 10⟩, ⟨0, 10⟩, ⟨0, 10⟩, ⟨0, 10⟩, ⟨0, 10⟩, ⟨0, 10⟩, ⟨0, 10⟩⟩
        { defaultAdventureData with
            cooldowns := { hunt := 5000, train := 0, daily := 0, quest := 0 } } =
      (⟨false, Msg.huntCooldown 4⟩,
        { defaultAdventureData with
            cooldowns := { hunt := 5000, train := 0, daily := 0, quest := 0 } })) ∧
    isCooldownMsg (hunt sampleItems sampleMonsters sampleLocations 1000
        ⟨⟨0, 10⟩, ⟨0, 10⟩, ⟨0, 10⟩, ⟨9, 10⟩, ⟨0, 10⟩, ⟨0, 10⟩, ⟨5, 10⟩, ⟨0, 10⟩⟩
        { defaultAdventureData with
            location := "forest"
            cooldowns :=
              { hunt := 0, train := 999999, daily := 999999, quest := 999999 } }).1.msg =
      false ∧
    (1000 < 5000 ∧
      train 1000 ⟨⟨0, 10⟩, ⟨5, 10⟩, ⟨0, 10⟩⟩
        { defaultAdventureData with
            cooldowns := { hunt := 0, train := 5000, daily := 0, quest := 0 } } =
      (⟨false, Msg.trainCooldown 4⟩,
        { defaultAdventureData with
            cooldowns := { hunt := 0, train := 5000, daily := 0, quest := 0 } })) ∧
    isCooldownMsg (train 1000 ⟨⟨0, 10⟩, ⟨5, 10⟩, ⟨0, 10⟩⟩
        { defaultAdventureData with
            cooldowns :=
              { hunt := 999999, train := 0, daily := 999999, quest := 999999 } }).1.msg =
      false ∧
    (1000 < 5000 ∧
      claimDaily 1000
        { defaultAdventureData with
            cooldowns := { hunt := 0, train := 0, daily := 5000, quest := 0 } } =
      (⟨false, Msg.dailyCooldown 4⟩,
        { defaultAdventureData with
            cooldowns := { hunt := 0, train := 0, daily := 5000, quest := 0 } })) ∧
    isCooldownMsg (claimDaily 1000
        { defaultAdventureData with
            cooldowns :=
              { hunt := 999999, train := 999999, daily := 0, quest := 999999 } }).1.msg =
      false :=
  ⟨⟨by decide, claim_C5_cooldown_gating.1 _ _ _ _ _ _ (by decide)⟩,
    claim_C5_cooldown_gating.2.1 _ _ _ _ _ _ (by decide),
    ⟨by decide, claim_C5_cooldown_gating.2.2.1 _ _ _ (by decide)⟩,
    claim_C5_cooldown_gating.2.2.2.1 _ _ _ (by decide),
    ⟨by decide, claim_C5_cooldown_gating.2.2.2.2.1 _ _ (by decide)⟩,
    claim_C5_cooldown_gating.2.2.2.2.2 _ _ (by decide)⟩

/-- Adding to the inventory raises the held quantity of that id by the
amount added. -/
lemma invQty_addItemQty (l : List InvEntry) (id : String) (q : Nat) :
    invQty (addItemQty l id q) id = invQty l id + q := by
  induction l with
  | nil => simp [addItemQty, invQty]
  | cons e rest ih =>
    by_cases h : e.id = id
    · simp [addItemQty, invQty, h]
      omega
    · simp [addItemQty, invQty, h, ih]

/-- Adding to the inventory leaves every other id's quantity unchanged. -/
lemma invQty_addItemQty_ne (l : List InvEntry) (id c : String) (q : Nat)
    (hc : c ≠ id) : invQty (addItemQty l id q) c = invQty l c := by
  induction l with
  | nil => simp [addItemQty, invQty, Ne.symm hc]
  | cons e rest ih =>
    by_cases h : e.id = id
    · simp [addItemQty, invQty, h, Ne.symm hc]
    · simp [addItemQty, invQty, h, ih]

/-- Removing one unit of an id that the first matching entry holds with
quantity at least one lowers the held quantity by exactly one. -/
lemma invQty_removeItemQty (l : List InvEntry) (id : String) (e : InvEntry)
    (hfind : l.find? (fun x => x.id = id) = some e) (hq : 1 ≤ e.quantity) :
    invQty (removeItemQty l id 1) id = invQty l id - 1 := by
  induction l with
  | nil => simp at hfind
  | cons a rest ih =>
    by_cases h : a.id = id
    · rw [List.find?_cons_of_pos _ (by simp [h])] at hfind
      obtain rfl : a = e := by injection hfind
      by_cases h1 : a.quantity ≤ 1
      · simp [removeItemQty, invQty, h, h1]
        omega
      · simp [removeItemQty, invQty, h, h1]
        omega
    · rw [List.find?_cons_of_neg _ (by simp [h])] at hfind
      simp [removeItemQty, invQty, h, ih hfind]

/-- Removing one unit of an id leaves every other id's quantity
unchanged. -/
lemma invQty_removeItemQty_ne (l : List InvEntry) (id c : String) (q : Nat)
    (hc : c ≠ id) : invQty (removeItemQty l id q) c = invQty l c := by
  induction l with
  | nil => simp [removeItemQty, invQty]
  | cons a rest ih =>
    by_cases h : a.id = id
    · have hac : ¬ a.id = c := by
        rw [h]
        exact Ne.symm hc
      by_cases h1 : a.quantity ≤ q
      · simp [removeItemQty, invQty, h, h1, hac, Ne.symm hc]
      · simp [removeItemQty, invQty, h, h1, hac, Ne.symm hc]
    · simp [removeItemQty, invQty, h, ih]

/-- Reading back the slot just written. -/
lemma slotGet_slotSet (eq : Equipment) (t : ItemType) (v : Option String)
    (ht : t = ItemType.weapon ∨ t = ItemType.armor ∨ t = ItemType.accessory) :
    slotGet (slotSet eq t v) t = v := by
  rcases ht with rfl | rfl | rfl <;> rfl

/-- The full behaviour of `equipItem` on an equipable item held in
inventory: it succeeds, writes the item id into the matching slot,
removes one unit from inventory, and returns the previously equipped
item (if any, and if different) to inventory. -/
lemma equipItem_equips (items : ItemCatalog) (p : AdventureData)
    (itemId : String) (e : InvEntry) (item : Item)
    (hfind : p.inventory.items.find? (fun x => x.id = itemId) = some e)
    (hq : 1 ≤ e.quantity)
    (hcat : catGet items itemId = some item)
    (ht : item.type = ItemType.weapon ∨ item.type = ItemType.armor ∨
      item.type = ItemType.accessory) :
    equipItem items p itemId =
      (⟨true, Msg.equipped⟩,
        { p with
            equipment := slotSet p.equipment item.type (some itemId)
            inventory :=
              { p.inventory with
                  items :=
                    match slotGet p.equipment item.type with
                    | some c => addItemQty (removeItemQty p.inventory.items itemId 1) c 1
                    | none => removeItemQty p.inventory.items itemId 1 } }) := by
  have hnc : ¬ item.type = ItemType.consumable := by
    rcases ht with h | h | h <;> simp [h]
  unfold equipItem
  rw [hfind]
  simp only
  rw [if_neg (by omega : ¬ e.quantity < 1), hcat]
  simp only
  rw [if_neg hnc, if_pos ht]

/-- C7: equipping an equipable item held in inventory swaps it into the
matching slot and decrements its inventory quantity by one; when a
different item occupied the slot, that item is returned to inventory.
Includes the concrete swap scenario: weapon slot holds `sword_1`, the
user equips `sword_2` from inventory, ending with `sword_2` equipped,
one fewer `sword_2` and one more `sword_1` in inventory. -/
theorem claim_C7_equip_swap :
    (∀ (items : ItemCatalog) (p : AdventureData) (itemId : String)
        (e : InvEntry) (item : Item),
      p.inventory.items.find? (fun x => x.id = itemId) = some e →
      1 ≤ e.quantity →
      catGet items itemId = some item →
      (item.type = ItemType.weapon ∨ item.type = ItemType.armor ∨
        item.type = ItemType.accessory) →
      (equipItem items p itemId).1.success = true ∧
      slotGet (equipItem items p itemId).2.equipment item.type = some itemId ∧
      (∀ c : String, slotGet p.equipment item.type = some c → c ≠ itemId →
        invQty (equipItem items p itemId).2.inventory.items c =
          invQty p.inventory.items c + 1 ∧
        invQty (equipItem items p itemId).2.inventory.items itemId =
          invQty p.inventory.items itemId - 1) ∧
      (slotGet p.equipment item.type = none →
        invQty (equipItem items p itemId).2.inventory.items itemId =
          invQty p.inventory.items itemId - 1)) ∧
    equipItem sampleItems
      { defaultAdventureData with
          equipment := { weapon := some "sword_1", armor := none, accessory := none }
          inventory := { gold := 0, items := [⟨"sword_2", 1⟩] } } "sword_2" =
      (⟨true, Msg.equipped⟩,
        { defaultAdventureData with
            equipment := { weapon := some "sword_2", armor := none, accessory := none }
            inventory := { gold := 0, items := [⟨"sword_1", 1⟩] } }) := by
  constructor
  · intro items p itemId e item hfind hq hcat ht
    rw [equipItem_equips items p itemId e item hfind hq hcat ht]
    refine ⟨rfl, slotGet_slotSet _ _ _ ht, ?_, ?_⟩
    · intro c hc hne
      simp only [hc]
      constructor
      · rw [invQty_addItemQty, invQty_removeItemQty_ne _ _ _ _ hne]
      · rw [invQty_addItemQty_ne _ _ _ _ (Ne.symm hne),
          invQty_removeItemQty _ _ e hfind hq]
    · intro hc
      simp only [hc]
      exact invQty_removeItemQty _ _ e hfind hq
  · decide

/-- Witness for C7 at a concrete swap with a different item in the
slot. -/
theorem claim_C7_witness :
    (equipItem sampleItems
      { defaultAdventureData with
          equipment := { weapon := some "sword_1", armor := none, accessory := none }
          inventory := { gold := 0, items := [⟨"sword_2", 3⟩, ⟨"mat_herb", 2⟩] } }
      "sword_2").1.success = true ∧
    invQty (equipItem sampleItems
      { defaultAdventureData with
          equipment := { weapon := some "sword_1", armor := none, accessory := none }
          inventory := { gold := 0, items := [⟨"sword_2", 3⟩, ⟨"mat_herb", 2⟩] } }
      "sword_2").2.inventory.items "sword_1" =
      invQty [(⟨"sword_2", 3⟩ : InvEntry), ⟨"mat_herb", 2⟩] "sword_1" + 1 :=
  ⟨(claim_C7_equip_swap.1 sampleItems _ "sword_2" ⟨"sword_2", 3⟩
      { type := .weapon, value := 200, required_level := 3, restore := 0 }
      (by decide) (by decide) (by decide) (by decide)).1,
    ((claim_C7_equip_swap.1 sampleItems _ "sword_2" ⟨"sword_2", 3⟩
      { type := .weapon, value := 200, required_level := 3, restore := 0 }
      (by decide) (by decide) (by decide) (by decide)).2.2.1 "sword_1"
      (by decide) (by decide)).1⟩

/-- C10: `equipItem` performs no level check on equipable items — for
any profile holding a weapon/armor/accessory in inventory the equip
succeeds and fills the slot even when the profile's level is strictly
below `item.required_level`. -/
theorem claim_C10_equip_no_level_check
    (items : ItemCatalog) (p : AdventureData) (itemId : String)
    (e : InvEntry) (item : Item)
    (hfind : p.inventory.items.find? (fun x => x.id = itemId) = some e)
    (hq : 1 ≤ e.quantity)
    (hcat : catGet items itemId = some item)
    (ht : item.type = ItemType.weapon ∨ item.type = ItemType.armor ∨
      item.type = ItemType.accessory)
    (_hlow : p.level < item.required_level) :
    (equipItem items p itemId).1.success = true ∧
    slotGet (equipItem items p itemId).2.equipment item.type = some itemId := by
  rw [equipItem_equips items p itemId e item hfind hq hcat ht]
  exact ⟨rfl, slotGet_slotSet _ _ _ ht⟩

/-- Witness for C10: a level-1 profile equips `axe_1`
(`required_level = 5`) obtained as a drop. -/
theorem claim_C10_witness :
    (1 < 5 ∧
      (equipItem sampleItems
        { defaultAdventureData with
            inventory := { gold := 0, items := [⟨"axe_1", 1⟩] } } "axe_1").1.success =
        true) :=
  ⟨by decide,
    (claim_C10_equip_no_level_check sampleItems
      { defaultAdventureData with
          inventory := { gold := 0, items := [⟨"axe_1", 1⟩] } } "axe_1"
      ⟨"axe_1", 1⟩ { type := .weapon, value := 300, required_level := 5, restore := 0 }
      (by decide) (by decide) (by decide) (by decide) (by decide)).1⟩

/-- C8: `buyItem` fails without mutating the profile when the item id
is unknown, when the adventure level is below `item.required_level`, or
when gold is below `item.value`; otherwise it deducts exactly
`item.value` gold and adds exactly one unit of the item.  Includes the
scenario: a level-3 user buying a `required_level = 5` item gets
`success = false` with no mutation. -/
theorem claim_C8_buy_item :
    (∀ (items : ItemCatalog) (p : AdventureData) (itemId : String),
      catGet items itemId = none →
        buyItem items p itemId = (⟨false, Msg.itemNotFound⟩, p)) ∧
    (∀ (items : ItemCatalog) (p : AdventureData) (itemId : String) (item : Item),
      catGet items itemId = some item →
      item.required_level ≠ 0 → p.level < item.required_level →
        buyItem items p itemId = (⟨false, Msg.levelTooLow item.required_level⟩, p)) ∧
    (∀ (items : ItemCatalog) (p : AdventureData) (itemId : String) (item : Item),
      catGet items itemId = some item →
      ¬ (item.required_level ≠ 0 ∧ p.level < item.required_level) →
      p.inventory.gold < item.value →
        buyItem items p itemId = (⟨false, Msg.notEnoughGold item.value⟩, p)) ∧
    (∀ (items : ItemCatalog) (p : AdventureData) (itemId : String) (item : Item),
      catGet items itemId = some item →
      ¬ (item.required_level ≠ 0 ∧ p.level < item.required_level) →
      item.value ≤ p.inventory.gold →
        buyItem items p itemId =
          (⟨true, Msg.purchased⟩,
            { p with inventory :=
              { gold := p.inventory.gold - item.value
                items := addItemQty p.inventory.items itemId 1 } })) ∧
    buyItem sampleItems { defaultAdventureData with level := 3 } "axe_1" =
      (⟨false, Msg.levelTooLow 5⟩, { defaultAdventureData with level := 3 }) := by
  refine ⟨?_, ?_, ?_, ?_, by decide⟩
  · intro items p itemId hcat
    unfold buyItem
    rw [hcat]
  · intro items p itemId item hcat hreq hlow
    unfold buyItem
    rw [hcat]
    simp only
    rw [if_pos ⟨hreq, hlow⟩]
  · intro items p itemId item hcat hnb hgold
    unfold buyItem
    rw [hcat]
    simp only
    rw [if_neg hnb, if_pos hgold]
  · intro items p itemId item hcat hnb hgold
    unfold buyItem
    rw [hcat]
    simp only
    rw [if_neg hnb, if_neg (by omega : ¬ p.inventory.gold < item.value)]

/-- Witness for C8: each rejection branch and the success branch at
concrete inputs over the sample catalog. -/
theorem claim_C8_witness :
    (catGet sampleItems "nonexistent" = none ∧
      buyItem sampleItems defaultAdventureData "nonexistent" =
        (⟨false, Msg.itemNotFound⟩, defaultAdventureData)) ∧
    buyItem sampleItems { defaultAdventureData with level := 3 } "armor_2" =
      (⟨false, Msg.levelTooLow 5⟩, { defaultAdventureData with level := 3 }) ∧
    buyItem sampleItems { defaultAdventureData with level := 3 } "sword_2" =
      (⟨false, Msg.notEnoughGold 200⟩, { defaultAdventureData with level := 3 }) ∧
    buyItem sampleItems defaultAdventureData "sword_1" =
      (⟨true, Msg.purchased⟩,
        { defaultAdventureData with
            inventory := { gold := 50, items := [⟨"sword_1", 1⟩] } }) :=
  ⟨⟨by decide, claim_C8_buy_item.1 sampleItems defaultAdventureData "nonexistent" (by decide)⟩,
    claim_C8_buy_item.2.1 sampleItems _ "armor_2"
      { type := .armor, value := 350, required_level := 5, restore := 0 }
      (by decide) (by decide) (by decide),
    claim_C8_buy_item.2.2.1 sampleItems _ "sword_2"
      { type := .weapon, value := 200, required_level := 3, restore := 0 }
      (by decide) (by decide) (by decide),
    claim_C8_buy_item.2.2.2.1 sampleItems _ "sword_1"
      { type := .weapon, value := 50, required_level := 1, restore := 0 }
      (by decide) (by decide) (by decide)⟩

/-- C4 (code bug): on a combat victory whose drop roll succeeds (and
likewise when the XP grant causes a level-up), `_handleCombatVictory`
evaluates the stale identifier `userData` — a `ReferenceError` — so the
hunt does NOT complete successfully: the catch block returns the generic
failure, no drop item is added, and only the mutations already applied
(gold, XP, `monstersDefeated`, but not the cooldown) remain.  Evaluated
here at a level-1 profile in the forest meeting a slime with
`dropRoll = 0.1 < dropChance = 0.3`, and at an XP-95 profile whose slime
victory levels it up. -/
theorem claim_C4_victory_fault_eval :
    (hunt sampleItems sampleMonsters sampleLocations 1000
        ⟨⟨0, 10⟩, ⟨0, 10⟩, ⟨0, 10⟩, ⟨1, 10⟩, ⟨0, 10⟩, ⟨0, 10⟩, ⟨5, 10⟩, ⟨0, 10⟩⟩
        { defaultAdventureData with location := "forest" }).1 =
      ⟨false, Msg.internalError⟩ ∧
    (hunt sampleItems sampleMonsters sampleLocations 1000
        ⟨⟨0, 10⟩, ⟨0, 10⟩, ⟨0, 10⟩, ⟨1, 10⟩, ⟨0, 10⟩, ⟨0, 10⟩, ⟨5, 10⟩, ⟨0, 10⟩⟩
        { defaultAdventureData with location := "forest" }).2 =
      { defaultAdventureData with
          location := "forest"
          xp := 10
          inventory := { gold := 105, items := [] }
          monstersDefeated := 1 } ∧
    invQty (hunt sampleItems sampleMonsters sampleLocations 1000
        ⟨⟨0, 10⟩, ⟨0, 10⟩, ⟨0, 10⟩, ⟨1, 10⟩, ⟨0, 10⟩, ⟨0, 10⟩, ⟨5, 10⟩, ⟨0, 10⟩⟩
        { defaultAdventureData with location := "forest" }).2.inventory.items
      "potion_health" = 0 ∧
    (hunt sampleItems sampleMonsters sampleLocations 1000
        ⟨⟨0, 10⟩, ⟨0, 10⟩, ⟨0, 10⟩, ⟨9, 10⟩, ⟨0, 10⟩, ⟨0, 10⟩, ⟨5, 10⟩, ⟨0, 10⟩⟩
        { defaultAdventureData with location := "forest", xp := 95 }).1 =
      ⟨false, Msg.internalError⟩ ∧
    (hunt sampleItems sampleMonsters sampleLocations 1000
        ⟨⟨0, 10⟩, ⟨0, 10⟩, ⟨0, 10⟩, ⟨9, 10⟩, ⟨0, 10⟩, ⟨0, 10⟩, ⟨5, 10⟩, ⟨0, 10⟩⟩
        { defaultAdventureData with location := "forest", xp := 95 }).2.level = 2 := by
  refine ⟨by decide, by decide, by decide, by decide, by decide⟩

/-- C9 counterexample: an internal fault mid-`hunt` (the stale
`userData` reference hit when a rat's drop roll succeeds) is surfaced as
the generic failure result, but the persisted state is NOT discarded
unchanged — the gold and kill-count mutations applied before the fault
remain on the shared in-memory record. -/
theorem claim_C9_cex :
    (hunt sampleItems sampleMonsters sampleLocations 1000
        ⟨⟨0, 10⟩, ⟨5, 10⟩, ⟨0, 10⟩, ⟨2, 10⟩, ⟨0, 10⟩, ⟨0, 10⟩, ⟨5, 10⟩, ⟨0, 10⟩⟩
        { defaultAdventureData with location := "forest" }).1.success = false ∧
    (hunt sampleItems sampleMonsters sampleLocations 1000
        ⟨⟨0, 10⟩, ⟨5, 10⟩, ⟨0, 10⟩, ⟨2, 10⟩, ⟨0, 10⟩, ⟨0, 10⟩, ⟨5, 10⟩, ⟨0, 10⟩⟩
        { defaultAdventureData with location := "forest" }).2 ≠
      { defaultAdventureData with location := "forest" } := by
  refine ⟨by decide, by decide⟩

/-- C9 (amended): every engine operation returns a structured
`{success, message}` result — a thrown internal fault is caught by the
operation's handler and surfaced as the generic failure — but the
read-modify-write mutates the shared in-memory record in place, so the
mutations applied before the fault (here gold and `monstersDefeated`,
with the cooldown line never reached) are retained rather than
discarded. -/
theorem claim_C9_structured_failure :
    (∀ (items : ItemCatalog) (monsters : MonsterCatalog)
        (locations : LocationCatalog) (now : Nat) (r : HuntRolls)
        (p : AdventureData) (exc : Unit) (s2 : AdventureData),
      huntBody items monsters locations now r p = (Except.error exc, s2) →
        hunt items monsters locations now r p = (⟨false, Msg.internalError⟩, s2)) ∧
    (hunt sampleItems sampleMonsters sampleLocations 1000
        ⟨⟨0, 10⟩, ⟨5, 10⟩, ⟨0, 10⟩, ⟨2, 10⟩, ⟨0, 10⟩, ⟨0, 10⟩, ⟨5, 10⟩, ⟨0, 10⟩⟩
        { defaultAdventureData with location := "forest" }).2 =
      { defaultAdventureData with
          location := "forest"
          xp := 8
          inventory := { gold := 103, items := [] }
          monstersDefeated := 1 } := by
  constructor
  · intro items monsters locations now r p exc s2 h
    unfold hunt
    rw [h]
  · decide

/-- Witness for C9 (amended): the catch-all clause applied at the
concrete faulting input. -/
theorem claim_C9_witness :
    hunt sampleItems sampleMonsters sampleLocations 1000
        ⟨⟨0, 10⟩, ⟨5, 10⟩, ⟨0, 10⟩, ⟨2, 10⟩, ⟨0, 10⟩, ⟨0, 10⟩, ⟨5, 10⟩, ⟨0, 10⟩⟩
        { defaultAdventureData with location := "forest" } =
      (⟨false, Msg.internalError⟩,
        (huntBody sampleItems sampleMonsters sampleLocations 1000
          ⟨⟨0, 10⟩, ⟨5, 10⟩, ⟨0, 10⟩, ⟨2, 10⟩, ⟨0, 10⟩, ⟨0, 10⟩, ⟨5, 10⟩, ⟨0, 10⟩⟩
          { defaultAdventureData with location := "forest" }).2) :=
  claim_C9_structured_failure.1 sampleItems sampleMonsters sampleLocations 1000
    ⟨⟨0, 10⟩, ⟨5, 10⟩, ⟨0, 10⟩, ⟨2, 10⟩, ⟨0, 10⟩, ⟨0, 10⟩, ⟨5, 10⟩, ⟨0, 10⟩⟩
    { defaultAdventureData with location := "forest" } ()
    (huntBody sampleItems sampleMonsters sampleLocations 1000
      ⟨⟨0, 10⟩, ⟨5, 10⟩, ⟨0, 10⟩, ⟨2, 10⟩, ⟨0, 10⟩, ⟨0, 10⟩, ⟨5, 10⟩, ⟨0, 10⟩⟩
      { defaultAdventureData with location := "forest" }).2
    (by rfl)

/-- C6 counterexample: with the engine's own `xpThreshold(level) =
100 * level^2` and `currentXp = xp - xpThreshold(level - 1)`, the XP
value `xpThreshold(level)` already fills the whole level-`level` bar:
at `level = 1` the percentage is 100, not 0, and at
`xpThreshold(level+1) - 1` it is clamped to 100, not 99. -/
theorem claim_C6_cex :
    (getProgress 1 (getXpNeeded 1)).percentage = 100 ∧
    (getProgress 1 (getXpNeeded 1)).percentage ≠ 0 ∧
    (getProgress 1 (getXpNeeded (1 + 1) - 1)).percentage = 100 ∧
    (getProgress 1 (getXpNeeded (1 + 1) - 1)).percentage ≠ 99 := by
  refine ⟨?_, ?_, ?_, ?_⟩ <;> norm_num [getProgress, getXpNeeded]

/-- C6 (amended): `xpThreshold(level) = 100 * level^2` is strictly
increasing for `level ≥ 1`, and the boundary cases hold one level down:
`progress(level, xpThreshold(level-1)).percentage = 0` (the XP needed to
reach `level`) and `progress(level, xpThreshold(level)-1).percentage = 99`. -/
theorem claim_C6_xp_threshold_progress :
    (∀ l1 l2 : ℤ, 1 ≤ l1 → l1 < l2 → getXpNeeded l1 < getXpNeeded l2) ∧
    (∀ L : ℤ, 1 ≤ L →
      (getProgress L (getXpNeeded (L - 1))).percentage = 0 ∧
      (getProgress L (getXpNeeded L - 1)).percentage = 99) := by
  constructor
  · intro l1 l2 h1 hlt
    simp only [getXpNeeded]
    nlinarith
  · intro L hL
    have hneed : getXpNeeded L - getXpNeeded (L - 1) = 100 * (2 * L - 1) := by
      simp only [getXpNeeded]
      ring
    have hn100 : (100 : ℤ) ≤ 100 * (2 * L - 1) := by nlinarith
    constructor
    · simp only [getProgress, hneed, sub_self]
      norm_num
    · simp only [getProgress, hneed]
      have harg : (getXpNeeded L - 1 - getXpNeeded (L - 1)) = 100 * (2 * L - 1) - 1 := by
        simp only [getXpNeeded]
        ring
      rw [harg]
      have hLq : (1 : ℚ) ≤ (L : ℚ) := by exact_mod_cast hL
      have hfl : ⌊(((100 * (2 * L - 1) - 1 : ℤ)) : ℚ) /
          ((100 * (2 * L - 1) : ℤ) : ℚ) * 100⌋ = 99 := by
        rw [Int.floor_eq_iff]
        push_cast
        constructor
        · rw [div_mul_eq_mul_div, le_div_iff₀ (by nlinarith)]
          nlinarith
        · rw [div_mul_eq_mul_div, div_lt_iff₀ (by nlinarith)]
          nlinarith
      rw [hfl]
      norm_num

/-- Witness for C6 (amended) at `level = 3`: the threshold is strictly
increasing from 2 to 3, and the progress boundaries are 0 and 99. -/
theorem claim_C6_witness :
    ((1 : ℤ) ≤ 2 ∧ (2 : ℤ) < 3 ∧ getXpNeeded 2 < getXpNeeded 3) ∧
    ((1 : ℤ) ≤ 3 ∧
      (getProgress 3 (getXpNeeded (3 - 1))).percentage = 0 ∧
      (getProgress 3 (getXpNeeded 3 - 1)).percentage = 99) :=
  ⟨⟨by norm_num, by norm_num,
      claim_C6_xp_threshold_progress.1 2 3 (by norm_num) (by norm_num)⟩,
    ⟨by norm_num, (claim_C6_xp_threshold_progress.2 3 (by norm_num)).1,
      (claim_C6_xp_threshold_progress.2 3 (by norm_num)).2⟩⟩

end TerraBot
